import Mathlib

/-!
Shallow embedding of the png_to_svg repository's orchestration layer:
the converter facade (src/converter.ts), the bulk driver
(src/bulk-converter.ts) and the REST convert handler's option assembly
(src/server.ts). JS numbers are modelled as `ℚ` (the values occurring in
the code are exact in ℚ; NaN is modelled as `none` where it can arise),
JS strings as Lean `String`, and absent/undefined optional fields as
`Option.none`.
-/

namespace PngToSvg

/-! ### JS string primitives used by the code -/

/-- Model of JS `String.prototype.replace` with a string pattern on
`List Char`: replaces the first occurrence of `pat`; if `pat` does not
occur, the input is returned unchanged. -/
def replaceFirstAux : List Char → List Char → List Char → List Char
  | [], pat, rep => if pat.isEmpty then rep else []
  | c :: rest, pat, rep =>
    if pat.isPrefixOf (c :: rest) then rep ++ (c :: rest).drop pat.length
    else c :: replaceFirstAux rest pat rep

/-- JS `s.replace(pat, rep)` (first occurrence only, string pattern). -/
def replaceFirst (s pat rep : String) : String :=
  ⟨replaceFirstAux s.data pat.data rep.data⟩

/-- Whether `pat` occurs as a contiguous substring. -/
def hasSubstr : List Char → List Char → Bool
  | [], pat => pat.isEmpty
  | c :: rest, pat => pat.isPrefixOf (c :: rest) || hasSubstr rest pat

/-- Decimal digits of a natural number, most significant first, as JS
template-literal interpolation of a nonnegative integer produces them.
The fuel argument only drives structural recursion; `n + 1` steps always
suffice since the value shrinks by a factor of ten each step. -/
def natDigitsAux : Nat → Nat → List Nat
  | 0, _ => []
  | fuel + 1, n => if n < 10 then [n] else natDigitsAux fuel (n / 10) ++ [n % 10]

/-- Decimal rendering of `Date.now()` (a nonnegative integer) inside a JS
template literal. -/
def jsNumToString (n : Nat) : String :=
  ⟨(natDigitsAux (n + 1) n).map Nat.digitChar⟩

/-! ### ConversionOptions and the converter facade (src/converter.ts) -/

/-- Interface `ConversionOptions` (converter.ts lines 7-15): every field is
optional; `none` models an absent (or `undefined`) field. `turnPolicy` is a
string at runtime. -/
structure ConversionOptions where
  threshold : Option ℚ := none
  turdSize : Option ℚ := none
  alphaMax : Option ℚ := none
  optCurve : Option Bool := none
  optTolerance : Option ℚ := none
  turnPolicy : Option String := none
  blackOnWhite : Option Bool := none
deriving DecidableEq

/-- `Required<ConversionOptions>`: the shape of the merged options object. -/
structure ResolvedOptions where
  threshold : ℚ
  turdSize : ℚ
  alphaMax : ℚ
  optCurve : Bool
  optTolerance : ℚ
  turnPolicy : String
  blackOnWhite : Bool
deriving DecidableEq

/-- Field `defaultOptions` of `PngToSvgConverter` (converter.ts lines 18-26). -/
def defaultOptions : ResolvedOptions :=
  { threshold := 128
    turdSize := 2
    alphaMax := 1
    optCurve := true
    optTolerance := 0.2
    turnPolicy := "minority"
    blackOnWhite := true }

/-- The spread merge `{ ...this.defaultOptions, ...options }` (converter.ts
line 44 and line 104): a field supplied in `options` overrides the default,
an absent field keeps the default. -/
def mergeOptions (options : ConversionOptions) : ResolvedOptions :=
  { threshold := options.threshold.getD defaultOptions.threshold
    turdSize := options.turdSize.getD defaultOptions.turdSize
    alphaMax := options.alphaMax.getD defaultOptions.alphaMax
    optCurve := options.optCurve.getD defaultOptions.optCurve
    optTolerance := options.optTolerance.getD defaultOptions.optTolerance
    turnPolicy := options.turnPolicy.getD defaultOptions.turnPolicy
    blackOnWhite := options.blackOnWhite.getD defaultOptions.blackOnWhite }

/-- Jimp operations applied to the in-memory image. -/
inductive ImageOp where
  | greyscale
  | contrast (amount : ℚ)
  | normalize
  | threshold (max : ℚ)
deriving DecidableEq

/-- Preprocessing sequence of `convertFile` (converter.ts lines 40-47) and of
`convertImageToSvg` (lines 104-112):
`image.greyscale().contrast(0.3).normalize()` followed by
`if (opts.threshold !== undefined) processedImage.threshold({ max: opts.threshold })`.
Since `opts` is the merge with `defaultOptions` (a `Required` record whose
`threshold` is 128), `opts.threshold` is always defined, so the guard always
holds and the threshold operation is unconditionally appended. -/
def preprocessPipeline (options : ConversionOptions) : List ImageOp :=
  let opts := mergeOptions options
  [ImageOp.greyscale, ImageOp.contrast 0.3, ImageOp.normalize]
    ++ [ImageOp.threshold opts.threshold]

/-- Temp path of `convertFile` (converter.ts line 50):
`inputPath.replace('.png', `.temp_${Date.now()}.png`)`. -/
def convertFileTempPath (inputPath : String) (now : Nat) : String :=
  replaceFirst inputPath ".png" (".temp_" ++ jsNumToString now ++ ".png")

/-- Temp path of `convertImageToSvg` (converter.ts lines 121-123):
`/tmp/temp_${Date.now()}_${Math.random().toString(36).substr(2, 9)}.png`;
`rand` stands for the random alphanumeric suffix. -/
def convertBufferTempPath (now : Nat) (rand : String) : String :=
  "/tmp/temp_" ++ jsNumToString now ++ "_" ++ rand ++ ".png"

/-- Observable file-system / logging events of one conversion. -/
inductive TraceEvent where
  | writeTemp (path : String)
  | unlink (path : String)
  | warnCleanup (path : String)
  | writeOutput (path : String)
deriving DecidableEq

/-- Model of `convertFile` (converter.ts lines 31-79) at the level of events
and outcome. `readResult` is the outcome of `Jimp.read` plus preprocessing;
`traceResult` the outcome the tracer passes to its callback. The callback
(lines 58-68) calls `unlinkSync(tempPath)` unconditionally before settling
the promise; `fs.writeFile(outputPath, …)` (line 72) runs only on success;
the surrounding try/catch logs and rethrows, so errors propagate. -/
def convertFileModel (inputPath outputPath : String) (now : Nat)
    (readResult : Except String Unit) (traceResult : Except String String) :
    List TraceEvent × Except String Unit :=
  match readResult with
  | .error e => ([], .error e)
  | .ok () =>
    let tempPath := convertFileTempPath inputPath now
    match traceResult with
    | .error e => ([.writeTemp tempPath, .unlink tempPath], .error e)
    | .ok _svg =>
      ([.writeTemp tempPath, .unlink tempPath, .writeOutput outputPath], .ok ())

/-- Model of `convertBuffer` / `convertImageToSvg` (converter.ts lines
84-143): the cleanup `unlinkSync` is wrapped in try/catch (lines 130-134);
when it throws, only a warning is logged (`warnCleanup`) and the promise is
still settled with the tracer's result, so a cleanup failure is never
raised to the caller. -/
def convertBufferModel (readResult : Except String Unit) (now : Nat)
    (rand : String) (unlinkFails : Bool)
    (traceResult : Except String String) :
    List TraceEvent × Except String String :=
  match readResult with
  | .error e => ([], .error e)
  | .ok () =>
    let tempPath := convertBufferTempPath now rand
    ([TraceEvent.writeTemp tempPath]
        ++ (if unlinkFails then [TraceEvent.warnCleanup tempPath]
            else [TraceEvent.unlink tempPath]),
      traceResult)

/-- Static `getPresetOptions` (converter.ts lines 230-273): a pure lookup;
the `default` branch returns the empty options record. -/
def getPresetOptions : String → ConversionOptions
  | "logo" =>
    { threshold := some 128, turdSize := some 2, optCurve := some true
      optTolerance := some 0.2, turnPolicy := some "minority" }
  | "photo" =>
    { threshold := some 120, turdSize := some 4, optCurve := some true
      optTolerance := some 0.3, turnPolicy := some "majority" }
  | "drawing" =>
    { threshold := some 140, turdSize := some 1, optCurve := some true
      optTolerance := some 0.1, turnPolicy := some "minority" }
  | "text" =>
    { threshold := some 128, turdSize := some 1, optCurve := some false
      optTolerance := some 0.1, turnPolicy := some "black" }
  | _ => {}

/-! ### Bulk driver (src/bulk-converter.ts) -/

/-- The `filterSize` record of `BulkConversionOptions` (bulk-converter.ts
line 19). -/
structure SizeFilter where
  min : Option ℚ := none
  max : Option ℚ := none
deriving DecidableEq

/-- A discovered PNG file: its path and its size in bytes as reported by
`fs.statSync`. -/
structure PngFile where
  path : String
  sizeBytes : ℚ
deriving DecidableEq

/-- Guard `sizeFilter.min && sizeKB < sizeFilter.min` (bulk-converter.ts
line 128): JS truthiness makes a bound of `0` (or an absent one) skip the
check entirely. -/
def minExcludes (sf : SizeFilter) (sizeKB : ℚ) : Bool :=
  match sf.min with
  | some m => decide (m ≠ 0) && decide (sizeKB < m)
  | none => false

/-- Guard `sizeFilter.max && sizeKB > sizeFilter.max` (bulk-converter.ts
line 129). -/
def maxExcludes (sf : SizeFilter) (sizeKB : ℚ) : Bool :=
  match sf.max with
  | some m => decide (m ≠ 0) && decide (m < sizeKB)
  | none => false

/-- `filterBySize` (bulk-converter.ts lines 116-135): with no filter every
file is kept; otherwise a file is pushed unless one of the two `continue`
guards fires. `sizeKB = stats.size / 1024`. -/
def filterBySize (files : List PngFile) (sizeFilter : Option SizeFilter) :
    List PngFile :=
  match sizeFilter with
  | none => files
  | some sf =>
    files.filter fun f =>
      let sizeKB := f.sizeBytes / 1024
      !minExcludes sf sizeKB && !maxExcludes sf sizeKB

/-- Interface `BulkConversionOptions` (bulk-converter.ts lines 9-20).
`maxWorkers` is kept as a natural number (the CLI parses it with
`parseInt`; negative values make the JS chunking loop diverge and are out
of scope). -/
structure BulkConversionOptions where
  preset : Option String := none
  threshold : Option ℚ := none
  turdSize : Option ℚ := none
  optCurve : Option Bool := none
  turnPolicy : Option String := none
  parallel : Option Bool := none
  maxWorkers : Option Nat := none
  recursive : Option Bool := none
  overwrite : Option Bool := none
  filterSize : Option SizeFilter := none
deriving DecidableEq

/-- Option assembly shared verbatim by `convertSequentially` (lines 148-158)
and `processChunk` (lines 231-241): start from the preset lookup (or `{}`),
then override via JS-truthy checks — `if (options.threshold)`,
`if (options.turdSize)`, `if (options.turnPolicy)` — except `optCurve`,
which is compared against `undefined`. A numeric `0` and the empty string
are falsy, so they do not override. -/
def buildConversionOptions (o : BulkConversionOptions) : ConversionOptions :=
  let c : ConversionOptions :=
    match o.preset with
    | some p => if p ≠ "" then getPresetOptions p else {}
    | none => {}
  let c :=
    match o.threshold with
    | some t => if t ≠ 0 then { c with threshold := some t } else c
    | none => c
  let c :=
    match o.turdSize with
    | some t => if t ≠ 0 then { c with turdSize := some t } else c
    | none => c
  let c :=
    match o.optCurve with
    | some b => { c with optCurve := some b }
    | none => c
  match o.turnPolicy with
  | some p => if p ≠ "" then { c with turnPolicy := some p } else c
  | none => c

/-- Outcome of one `converter.convertFile` call inside the bulk loops. -/
inductive ConvertOutcome where
  | success
  | failure
deriving DecidableEq

/-- Environment of one file in a bulk run: whether the mirrored destination
SVG already exists (`fs.existsSync(outputPath)`) and how the conversion
would end if invoked. -/
structure FileTask where
  destExists : Bool
  outcome : ConvertOutcome
deriving DecidableEq

/-- The stats counters of `BulkConverter` (bulk-converter.ts lines 24-31);
timing fields are omitted. -/
structure BulkStats where
  total : Nat := 0
  successful : Nat := 0
  failed : Nat := 0
  skipped : Nat := 0
deriving DecidableEq

/-- Per-file body shared by the sequential loop (bulk-converter.ts lines
171-197) and the chunk loop (lines 253-286): skip (incrementing `skipped`)
when not overwriting and the destination exists — without invoking the
converter — otherwise convert and increment `successful` or `failed`. The
returned boolean records whether the converter was invoked. -/
def processOneFile (overwrite : Bool) (t : FileTask) (s : BulkStats) :
    BulkStats × Bool :=
  if !overwrite && t.destExists then
    ({ s with skipped := s.skipped + 1 }, false)
  else
    match t.outcome with
    | .success => ({ s with successful := s.successful + 1 }, true)
    | .failure => ({ s with failed := s.failed + 1 }, true)

/-- `convertSequentially` (bulk-converter.ts lines 140-199) restricted to
its effect on the stats counters. -/
def convertSequentially (overwrite : Bool) (tasks : List FileTask)
    (s : BulkStats) : BulkStats :=
  tasks.foldl (fun st t => (processOneFile overwrite t st).1) s

/-- `processChunk` (bulk-converter.ts lines 224-287): the same per-file
loop as `convertSequentially`. -/
def processChunk (overwrite : Bool) (tasks : List FileTask)
    (s : BulkStats) : BulkStats :=
  tasks.foldl (fun st t => (processOneFile overwrite t st).1) s

/-- `chunkArray` (bulk-converter.ts lines 292-298): slices of `chunkSize`
consecutive elements. The fuel argument only drives structural recursion;
`l.length` steps always suffice when `chunkSize ≥ 1`. -/
def chunkAux {α : Type} : Nat → List α → Nat → List (List α)
  | 0, _, _ => []
  | fuel + 1, l, chunkSize =>
    if l.isEmpty then []
    else l.take chunkSize :: chunkAux fuel (l.drop chunkSize) chunkSize

/-- `chunkArray(array, chunkSize)`. -/
def chunkArray {α : Type} (array : List α) (chunkSize : Nat) :
    List (List α) :=
  chunkAux array.length array chunkSize

/-- `Math.ceil(a / b)` for natural numbers. -/
def ceilDiv (a b : Nat) : Nat := (a + b - 1) / b

/-- Worker count of `convertInParallel` (bulk-converter.ts line 210):
`options.maxWorkers || Math.min(4, files.length)` — JS truthiness, so a
configured value of `0` falls back to the default. -/
def effectiveMaxWorkers (maxWorkers : Option Nat) (fileCount : Nat) : Nat :=
  match maxWorkers with
  | some w => if w ≠ 0 then w else min 4 fileCount
  | none => min 4 fileCount

/-- The chunks built by `convertInParallel` (bulk-converter.ts line 213):
`chunkArray(files, Math.ceil(files.length / maxWorkers))`. -/
def parallelChunks (tasks : List FileTask) (maxWorkers : Option Nat) :
    List (List FileTask) :=
  chunkArray tasks (ceilDiv tasks.length (effectiveMaxWorkers maxWorkers tasks.length))

/-- `convertInParallel` (bulk-converter.ts lines 204-219) restricted to its
effect on the stats counters. The chunk tasks run concurrently on the JS
event loop, but each counter increment is a single uninterrupted step and
each file contributes exactly one increment, so the final counters equal
those of processing the chunks in order; `Promise.all` makes the driver
wait for every chunk before the summary is printed. -/
def convertInParallel (overwrite : Bool) (tasks : List FileTask)
    (maxWorkers : Option Nat) (s : BulkStats) : BulkStats :=
  (parallelChunks tasks maxWorkers).foldl
    (fun st chunk => processChunk overwrite chunk st) s

/-- `convertDirectory` (bulk-converter.ts lines 36-83) restricted to its
effect on the stats counters. `pngFiles` is the list `findPngFiles`
discovered; `task` gives each file's destination-existence and conversion
outcome. `stats.total` is set to the discovered count (line 51); when no
PNG is found the function returns early (lines 55-58); parallel mode is
taken when `options.parallel && filteredFiles.length > 1` (line 70). -/
def convertDirectory (pngFiles : List PngFile) (o : BulkConversionOptions)
    (task : PngFile → FileTask) : BulkStats :=
  let stats0 : BulkStats := { total := pngFiles.length }
  if pngFiles.length = 0 then stats0
  else
    let filteredFiles := filterBySize pngFiles o.filterSize
    let tasks := filteredFiles.map task
    let overwrite := o.overwrite.getD false
    if (o.parallel.getD false) && decide (filteredFiles.length > 1) then
      convertInParallel overwrite tasks o.maxWorkers stats0
    else
      convertSequentially overwrite tasks stats0

/-! ### REST convert handler option assembly (src/server.ts) -/

/-- Form fields of `POST /api/convert` (server.ts lines 68-82): multipart
form values arrive as strings; `none` models an absent field. -/
structure ConvertRequestBody where
  preset : Option String := none
  threshold : Option String := none
  turdSize : Option String := none
  optCurve : Option String := none
  turnPolicy : Option String := none
deriving DecidableEq

/-- Digit run value of a list of characters. -/
def digitsValue (cs : List Char) : Nat :=
  cs.foldl (fun a c => a * 10 + (c.toNat - '0'.toNat)) 0

/-- JS `parseInt` on the strings this handler receives: skip leading
spaces, optional sign, then a leading digit run; `none` models `NaN` (no
digits). -/
def parseIntJS (s : String) : Option Int :=
  let cs := s.data.dropWhile (fun c => c = ' ')
  let core : List Char → Option Int := fun cs =>
    let ds := cs.takeWhile (fun c => c.isDigit)
    if ds.isEmpty then none else some (digitsValue ds : Int)
  match cs with
  | '-' :: rest => (core rest).map (fun n => -n)
  | '+' :: rest => core rest
  | _ => core cs

/-- Option assembly of the `POST /api/convert` handler (server.ts lines
69-82): preset lookup via `Object.assign` when the `preset` field is a
truthy string, then truthy-string overrides for `threshold`, `turdSize`
and `turnPolicy` and a presence check for `optCurve`. Note the fields are
strings here, so the string `"0"` is truthy and does override. `parseInt`
producing `NaN` is modelled as clearing the field. -/
def serverBuildOptions (b : ConvertRequestBody) : ConversionOptions :=
  let c : ConversionOptions :=
    match b.preset with
    | some p => if p ≠ "" then getPresetOptions p else {}
    | none => {}
  let c :=
    match b.threshold with
    | some s => if s ≠ "" then { c with threshold := (parseIntJS s).map (fun n => (n : ℚ)) } else c
    | none => c
  let c :=
    match b.turdSize with
    | some s => if s ≠ "" then { c with turdSize := (parseIntJS s).map (fun n => (n : ℚ)) } else c
    | none => c
  let c :=
    match b.optCurve with
    | some s => { c with optCurve := some (s = "true") }
    | none => c
  match b.turnPolicy with
  | some p => if p ≠ "" then { c with turnPolicy := some p } else c
  | none => c

/-! ### Helper lemmas -/

/-- Unfolding of the sequential loop one file at a time. -/
theorem convertSequentially_cons (overwrite : Bool) (t : FileTask)
    (ts : List FileTask) (s : BulkStats) :
    convertSequentially overwrite (t :: ts) s
      = convertSequentially overwrite ts ((processOneFile overwrite t s).1) :=
  rfl

/-- One per-file step increments exactly one of the three outcome counters
and leaves `total` untouched. -/
theorem processOneFile_counts (overwrite : Bool) (t : FileTask)
    (s : BulkStats) :
    ((processOneFile overwrite t s).1).successful
        + ((processOneFile overwrite t s).1).failed
        + ((processOneFile overwrite t s).1).skipped
      = s.successful + s.failed + s.skipped + 1 ∧
    ((processOneFile overwrite t s).1).total = s.total := by
  unfold processOneFile
  split
  · exact ⟨by simp; omega, by simp⟩
  · cases t.outcome <;> exact ⟨by simp; omega, by simp⟩

/-- The sequential loop adds exactly the number of processed files to the
sum of the outcome counters, preserving `total`. -/
theorem convertSequentially_counts (overwrite : Bool)
    (tasks : List FileTask) (s : BulkStats) :
    (convertSequentially overwrite tasks s).successful
        + (convertSequentially overwrite tasks s).failed
        + (convertSequentially overwrite tasks s).skipped
      = s.successful + s.failed + s.skipped + tasks.length ∧
    (convertSequentially overwrite tasks s).total = s.total := by
  induction tasks generalizing s with
  | nil => exact ⟨rfl, rfl⟩
  | cons t ts ih =>
    rw [convertSequentially_cons]
    obtain ⟨h1, h2⟩ := processOneFile_counts overwrite t s
    obtain ⟨h3, h4⟩ := ih ((processOneFile overwrite t s).1)
    constructor
    · rw [h3, h1]; simp [List.length_cons]; omega
    · rw [h4, h2]

/-- Folding the sequential loop over a list of chunks is the sequential
loop over their concatenation. -/
theorem foldl_convertSequentially_flatten (overwrite : Bool)
    (chunks : List (List FileTask)) (s : BulkStats) :
    chunks.foldl (fun st c => convertSequentially overwrite c st) s
      = convertSequentially overwrite chunks.flatten s := by
  induction chunks generalizing s with
  | nil => rfl
  | cons c cs ih =>
    rw [List.foldl_cons, List.flatten_cons, ih]
    unfold convertSequentially
    rw [List.foldl_append]

/-- Concatenating the chunks gives back the original list (for a positive
chunk size and enough fuel). -/
theorem chunkAux_flatten {α : Type} (fuel : Nat) (l : List α) (k : Nat)
    (hk : 1 ≤ k) (hfuel : l.length ≤ fuel) :
    (chunkAux fuel l k).flatten = l := by
  induction fuel generalizing l with
  | zero =>
    have hl : l = [] := List.length_eq_zero.mp (Nat.le_zero.mp hfuel)
    subst hl; rfl
  | succ fuel ih =>
    by_cases hl : l = []
    · subst hl; rfl
    · have hne : l.isEmpty = false := List.isEmpty_eq_false.mpr hl
      have hlen : 1 ≤ l.length := by
        cases l with
        | nil => exact absurd rfl hl
        | cons a as => simp
      simp only [chunkAux, hne, Bool.false_eq_true, if_false, List.flatten_cons]
      rw [ih (l.drop k) (by rw [List.length_drop]; omega)]
      exact List.take_append_drop k l

/-- The number of chunks is the ceiling of the length divided by the chunk
size. -/
theorem ceilDiv_sub_step (n k : Nat) (hk : 1 ≤ k) (hn : 1 ≤ n) :
    ceilDiv (n - k) k + 1 = ceilDiv n k := by
  unfold ceilDiv
  rcases Nat.le_total n k with h | h
  · have h1 : n - k = 0 := by omega
    rw [h1]
    have h2 : (0 + k - 1) / k = 0 := Nat.div_eq_of_lt (by omega)
    have h3 : (n + k - 1) / k = 1 :=
      Nat.div_eq_of_lt_le (by omega) (by omega)
    rw [h2, h3]
  · have h1 : n - k + k - 1 = n - 1 := by omega
    have h2 : n + k - 1 = (n - 1) + k := by omega
    rw [h1, h2, Nat.add_div_right _ (by omega : 0 < k)]

/-- Chunk count of `chunkAux`. -/
theorem chunkAux_length {α : Type} (fuel : Nat) (l : List α) (k : Nat)
    (hk : 1 ≤ k) (hfuel : l.length ≤ fuel) :
    (chunkAux fuel l k).length = ceilDiv l.length k := by
  have hdiv : (k - 1) / k = 0 := Nat.div_eq_of_lt (by omega)
  induction fuel generalizing l with
  | zero =>
    have hl : l = [] := List.length_eq_zero.mp (Nat.le_zero.mp hfuel)
    subst hl
    simp [chunkAux, ceilDiv, hdiv]
  | succ fuel ih =>
    by_cases hl : l = []
    · subst hl
      simp [chunkAux, ceilDiv, hdiv]
    · have hne : l.isEmpty = false := List.isEmpty_eq_false.mpr hl
      have hlen : 1 ≤ l.length := by
        cases l with
        | nil => exact absurd rfl hl
        | cons a as => simp
      simp only [chunkAux, hne, Bool.false_eq_true, if_false, List.length_cons]
      rw [ih (l.drop k) (by rw [List.length_drop]; omega), List.length_drop]
      exact ceilDiv_sub_step l.length k hk hlen

/-- Every chunk has at most `k` elements. -/
theorem chunkAux_sizes {α : Type} (fuel : Nat) (l : List α) (k : Nat) :
    ∀ c ∈ chunkAux fuel l k, c.length ≤ k := by
  induction fuel generalizing l with
  | zero => intro c hc; simp [chunkAux] at hc
  | succ fuel ih =>
    intro c hc
    simp only [chunkAux] at hc
    by_cases hl : l.isEmpty
    · simp [hl] at hc
    · rw [Bool.not_eq_true] at hl
      simp only [hl, Bool.false_eq_true, if_false] at hc
      rcases List.mem_cons.mp hc with rfl | h
      · rw [List.length_take]; omega
      · exact ih (l.drop k) c h

/-- The ceiling division dominates the exact quotient: `n ≤ W * ⌈n / W⌉`. -/
theorem le_mul_ceilDiv (n W : Nat) (hW : 1 ≤ W) : n ≤ W * ceilDiv n W := by
  unfold ceilDiv
  have hd := Nat.div_add_mod (n + W - 1) W
  have hm : (n + W - 1) % W < W := Nat.mod_lt _ (by omega)
  generalize hq : W * ((n + W - 1) / W) = t at hd ⊢
  omega

/-- The chunk count is at most the worker count. -/
theorem ceilDiv_le_of_le_mul (n k W : Nat) (hk : 1 ≤ k) (h : n ≤ W * k) :
    ceilDiv n k ≤ W := by
  unfold ceilDiv
  have hlt : n + k - 1 < (W + 1) * k := by
    rw [Nat.succ_mul]
    generalize W * k = t at h ⊢
    omega
  have := (Nat.div_lt_iff_lt_mul (by omega : 0 < k)).mpr hlt
  omega

/-- A positive number of items yields a positive chunk size. -/
theorem ceilDiv_pos (n k : Nat) (hn : 1 ≤ n) (hk : 1 ≤ k) :
    1 ≤ ceilDiv n k := by
  unfold ceilDiv
  rw [Nat.le_div_iff_mul_le (by omega : 0 < k)]
  omega

/-- The effective worker count is positive whenever there is a file. -/
theorem effectiveMaxWorkers_pos (mw : Option Nat) (n : Nat) (hn : 1 ≤ n) :
    1 ≤ effectiveMaxWorkers mw n := by
  unfold effectiveMaxWorkers
  cases mw with
  | none => exact le_min (by omega) hn
  | some w =>
    by_cases hw : w = 0
    · simp only [hw, ne_eq, not_true_eq_false, if_false]
      exact le_min (by omega) hn
    · simp only [ne_eq, hw, not_false_eq_true, if_true]
      omega

/-- On a nonempty task list the parallel driver computes the same counters
as the sequential one: the chunks concatenate back to the full list and
each chunk runs the sequential per-file loop. -/
theorem convertInParallel_eq_sequential (overwrite : Bool)
    (tasks : List FileTask) (mw : Option Nat) (s : BulkStats)
    (h : 0 < tasks.length) :
    convertInParallel overwrite tasks mw s
      = convertSequentially overwrite tasks s := by
  have hW := effectiveMaxWorkers_pos mw tasks.length h
  have hk : 1 ≤ ceilDiv tasks.length (effectiveMaxWorkers mw tasks.length) :=
    ceilDiv_pos _ _ h hW
  have hflat := chunkAux_flatten tasks.length tasks
    (ceilDiv tasks.length (effectiveMaxWorkers mw tasks.length)) hk (Nat.le_refl _)
  unfold convertInParallel parallelChunks chunkArray
  have hfun : (fun (st : BulkStats) (chunk : List FileTask) => processChunk overwrite chunk st)
      = fun st chunk => convertSequentially overwrite chunk st := rfl
  rw [hfun, foldl_convertSequentially_flatten, hflat]

/-- The size filter never grows the file list. -/
theorem filterBySize_length_le (files : List PngFile)
    (sizeFilter : Option SizeFilter) :
    (filterBySize files sizeFilter).length ≤ files.length := by
  cases sizeFilter with
  | none => exact Nat.le_refl _
  | some sf => exact List.length_filter_le _ _

/-- Characterization of the `min` exclusion guard. -/
theorem minExcludes_eq_false_iff (sf : SizeFilter) (x : ℚ) :
    minExcludes sf x = false
      ↔ ¬∃ m, sf.min = some m ∧ m ≠ 0 ∧ x < m := by
  unfold minExcludes
  cases hm : sf.min with
  | none => simp
  | some m =>
    simp only [Bool.and_eq_false_iff, decide_eq_false_iff_not, not_not]
    constructor
    · rintro (h | h) ⟨m', hm', h0, hlt⟩
      · cases hm'; exact h0 h
      · cases hm'; exact absurd hlt h
    · intro h
      by_cases h0 : m = 0
      · exact Or.inl h0
      · right
        intro hlt
        exact h ⟨m, rfl, h0, hlt⟩

/-- Characterization of the `max` exclusion guard. -/
theorem maxExcludes_eq_false_iff (sf : SizeFilter) (x : ℚ) :
    maxExcludes sf x = false
      ↔ ¬∃ m, sf.max = some m ∧ m ≠ 0 ∧ m < x := by
  unfold maxExcludes
  cases hm : sf.max with
  | none => simp
  | some m =>
    simp only [Bool.and_eq_false_iff, decide_eq_false_iff_not, not_not]
    constructor
    · rintro (h | h) ⟨m', hm', h0, hlt⟩
      · cases hm'; exact h0 h
      · cases hm'; exact absurd hlt h
    · intro h
      by_cases h0 : m = 0
      · exact Or.inl h0
      · right
        intro hlt
        exact h ⟨m, rfl, h0, hlt⟩

/-! ### Claim theorems -/

/-- Claim C1 (code bug evaluated at the failing input): with the threshold
option unset, `convertFile`'s preprocessing still applies a threshold
operation — with the default value 128 — because the guard
`opts.threshold !== undefined` tests the merged options, whose `threshold`
is always defined. This contradicts the claim (and the code's own comment
"Apply threshold if specified"). -/
theorem threshold_applied_despite_unset_option :
    preprocessPipeline {} =
      [ImageOp.greyscale, ImageOp.contrast 0.3, ImageOp.normalize,
        ImageOp.threshold 128] := rfl

/-- Claim C2 (code bug evaluated at the failing input): the `convertFile`
temp path is built with the case-sensitive `inputPath.replace('.png', …)`,
but the bulk walker admits files whose extension matches `.png` only
case-insensitively. For the input `"A.PNG"` no replacement happens and the
temp path equals the input path, so the temp write overwrites the input
file (and the cleanup deletes it); for a lowercase `"a.png"` the paths
differ as the claim describes. -/
theorem tempPath_collides_with_uppercase_input :
    convertFileTempPath "A.PNG" 1734567890123 = "A.PNG" ∧
    convertFileTempPath "a.png" 1734567890123 ≠ "a.png" := by
  constructor
  · rfl
  · decide

/-- Claim C4 (confirmed): the merge `{ ...defaultOptions, ...options }`
is field-by-field — a supplied field overrides (`Option.getD` returns the
supplied value), an unspecified one takes the documented default:
threshold 128, turdSize 2, alphaMax 1, optCurve true, optTolerance 0.2,
turnPolicy "minority", blackOnWhite true. -/
theorem options_merge_defaults_spec (o : ConversionOptions) :
    (mergeOptions o).threshold = o.threshold.getD 128 ∧
    (mergeOptions o).turdSize = o.turdSize.getD 2 ∧
    (mergeOptions o).alphaMax = o.alphaMax.getD 1 ∧
    (mergeOptions o).optCurve = o.optCurve.getD true ∧
    (mergeOptions o).optTolerance = o.optTolerance.getD 0.2 ∧
    (mergeOptions o).turnPolicy = o.turnPolicy.getD "minority" ∧
    (mergeOptions o).blackOnWhite = o.blackOnWhite.getD true :=
  ⟨rfl, rfl, rfl, rfl, rfl, rfl, rfl⟩

/-- Claim C5 (confirmed): `getPresetOptions` is a pure lookup returning the
fixed documented records for the four valid preset names and the empty
options record for every other string, signaling no error. -/
theorem preset_lookup_spec :
    getPresetOptions "logo" =
      { threshold := some 128, turdSize := some 2, optCurve := some true,
        optTolerance := some 0.2, turnPolicy := some "minority" } ∧
    getPresetOptions "photo" =
      { threshold := some 120, turdSize := some 4, optCurve := some true,
        optTolerance := some 0.3, turnPolicy := some "majority" } ∧
    getPresetOptions "drawing" =
      { threshold := some 140, turdSize := some 1, optCurve := some true,
        optTolerance := some 0.1, turnPolicy := some "minority" } ∧
    getPresetOptions "text" =
      { threshold := some 128, turdSize := some 1, optCurve := some false,
        optTolerance := some 0.1, turnPolicy := some "black" } ∧
    ∀ s : String, s ≠ "logo" → s ≠ "photo" → s ≠ "drawing" → s ≠ "text" →
      getPresetOptions s = {} := by
  refine ⟨rfl, rfl, rfl, rfl, ?_⟩
  intro s h1 h2 h3 h4
  unfold getPresetOptions
  split <;> simp_all

/-- Witness for claim C5 at a concrete unrecognized preset name. -/
theorem preset_lookup_witness : getPresetOptions "gradient" = {} :=
  preset_lookup_spec.2.2.2.2 "gradient" (by decide) (by decide) (by decide)
    (by decide)

/-- Claim C7 (counterexample): with the size filter `{ max: 0 }`, a 1024
byte file — whose size of 1 KB is strictly above the max bound — is kept,
not excluded: the guard `sizeFilter.max && …` treats the bound 0 as falsy
and skips the check, contradicting the claim's "excluded exactly when …
strictly above max". -/
theorem size_filter_zero_max_cex :
    filterBySize [⟨"a.png", 1024⟩] (some { max := some 0 })
      = [⟨"a.png", 1024⟩] ∧
    (1024 : ℚ) / 1024 > 0 := by
  constructor
  · rfl
  · norm_num

/-- Claim C7 (amended): with no filter every file passes; with a filter, a
file is kept exactly when no set-and-nonzero `min` strictly exceeds its
size in kilobytes and no set-and-nonzero `max` is strictly below it; each
bound is evaluated independently, a bound of 0 is ignored (JS truthiness),
and boundary files (size exactly `min` or exactly `max`) are included
since both comparisons are strict. -/
theorem size_filter_spec (files : List PngFile) (sf : SizeFilter)
    (f : PngFile) :
    filterBySize files none = files ∧
    (f ∈ filterBySize files (some sf) ↔
      f ∈ files ∧
      ¬(∃ m, sf.min = some m ∧ m ≠ 0 ∧ f.sizeBytes / 1024 < m) ∧
      ¬(∃ m, sf.max = some m ∧ m ≠ 0 ∧ m < f.sizeBytes / 1024)) := by
  refine ⟨rfl, ?_⟩
  show f ∈ List.filter _ files ↔ _
  rw [List.mem_filter, Bool.and_eq_true, Bool.not_eq_true', Bool.not_eq_true',
    minExcludes_eq_false_iff, maxExcludes_eq_false_iff]

/-- Claim C6 (confirmed): a preprocessing or tracing error propagates to
the caller on both paths. On the `convertFile` path a tracing error still
removes the temp file (unconditionally, inside the tracer callback) and
the output file is never written; on the `convertBuffer` path the result
is the tracer's result whether or not the cleanup fails, and a failing
cleanup only logs a warning — it is never raised to the caller. -/
theorem error_propagation_cleanup_spec (inputPath outputPath : String)
    (now : Nat) (rand : String) (e : String)
    (tr : Except String String) (unlinkFails : Bool) :
    convertFileModel inputPath outputPath now (.ok ()) (.error e) =
      ([.writeTemp (convertFileTempPath inputPath now),
        .unlink (convertFileTempPath inputPath now)], .error e) ∧
    convertFileModel inputPath outputPath now (.error e) tr
      = ([], .error e) ∧
    (∀ p, TraceEvent.writeOutput p ∉
      (convertFileModel inputPath outputPath now (.ok ()) (.error e)).1) ∧
    (convertBufferModel (.ok ()) now rand unlinkFails tr).2 = tr ∧
    (unlinkFails = true →
      (convertBufferModel (.ok ()) now rand unlinkFails tr).1 =
        [.writeTemp (convertBufferTempPath now rand),
          .warnCleanup (convertBufferTempPath now rand)] ∧
      TraceEvent.unlink (convertBufferTempPath now rand) ∉
        (convertBufferModel (.ok ()) now rand unlinkFails tr).1) := by
  refine ⟨rfl, rfl, ?_, rfl, ?_⟩
  · intro p
    simp [convertFileModel]
  · intro h
    subst h
    exact ⟨rfl, by simp [convertBufferModel]⟩

/-- Witness for claim C6: a concrete failing trace on both paths, with a
failing cleanup on the buffer path. -/
theorem error_propagation_cleanup_witness :
    (convertBufferModel (.ok ()) 7 "k3j2h" true (.error "trace failed")).2
      = .error "trace failed" ∧
    (convertBufferModel (.ok ()) 7 "k3j2h" true (.error "trace failed")).1 =
      [.writeTemp (convertBufferTempPath 7 "k3j2h"),
        .warnCleanup (convertBufferTempPath 7 "k3j2h")] :=
  ⟨(error_propagation_cleanup_spec "a.png" "out.svg" 7 "k3j2h" "boom"
      (.error "trace failed") true).2.2.2.1,
    ((error_propagation_cleanup_spec "a.png" "out.svg" 7 "k3j2h" "boom"
      (.error "trace failed") true).2.2.2.2 rfl).1⟩

/-- Claim C8 (confirmed): the per-file body shared by the sequential loop
and the parallel chunk loop skips a file — incrementing only the skipped
counter and not invoking the converter — exactly when `overwrite` is false
and the destination SVG exists; with `overwrite` true the converter is
always invoked, whether or not the destination exists, and the skipped
counter never moves. -/
theorem skip_overwrite_spec (t : FileTask) (s : BulkStats) :
    (t.destExists = true →
      processOneFile false t s = ({ s with skipped := s.skipped + 1 }, false)) ∧
    (t.destExists = false → (processOneFile false t s).2 = true) ∧
    (processOneFile true t s).2 = true ∧
    (processOneFile true t s).1.skipped = s.skipped := by
  refine ⟨fun h => ?_, fun h => ?_, ?_, ?_⟩
  · simp [processOneFile, h]
  · simp only [processOneFile, h, Bool.not_false, Bool.and_false,
      Bool.false_eq_true, if_false]
    cases t.outcome <;> rfl
  · simp only [processOneFile, Bool.not_true, Bool.false_and,
      Bool.false_eq_true, if_false]
    cases t.outcome <;> rfl
  · simp only [processOneFile, Bool.not_true, Bool.false_and,
      Bool.false_eq_true, if_false]
    cases t.outcome <;> rfl

/-- Witness for claim C8: a file whose destination exists is skipped when
not overwriting and converted when overwriting. -/
theorem skip_overwrite_witness :
    processOneFile false ⟨true, ConvertOutcome.success⟩ {} =
      ({ skipped := 1 }, false) ∧
    (processOneFile true ⟨true, ConvertOutcome.success⟩ {}).2 = true :=
  ⟨(skip_overwrite_spec ⟨true, ConvertOutcome.success⟩ {}).1 rfl,
    (skip_overwrite_spec ⟨true, ConvertOutcome.success⟩ {}).2.2.1⟩

/-- Claim C9 (counterexample): in the REST convert handler the form fields
arrive as strings, and the string "0" is truthy in JS, so a supplied
threshold of 0 is parsed and honored — not silently ignored as the claim
states (with no preset, an ignored override would have left the field
unset). -/
theorem server_threshold_zero_cex :
    (serverBuildOptions { threshold := some "0" }).threshold = some 0 ∧
    some (0 : ℚ) ≠ (none : Option ℚ) := by
  exact ⟨rfl, by decide⟩

/-- Claim C9 (amended): in the bulk driver's option assembly (used by both
the sequential and the per-chunk path) a supplied threshold of 0 or
turdSize of 0 is silently ignored — the assembled options equal those with
the field unset — because the override check is numeric truthiness, while
optCurve = false is honored because it is compared against undefined. In
the REST convert handler the fields are strings, where only the empty
string is falsy: the string "0" does override the threshold with 0, and
optCurve = "false" is honored via the presence check. -/
theorem truthiness_override_spec (o : BulkConversionOptions)
    (b : ConvertRequestBody) :
    buildConversionOptions { o with threshold := some 0 }
      = buildConversionOptions { o with threshold := none } ∧
    buildConversionOptions { o with turdSize := some 0 }
      = buildConversionOptions { o with turdSize := none } ∧
    (buildConversionOptions { o with optCurve := some false }).optCurve
      = some false ∧
    (serverBuildOptions { b with threshold := some "0" }).threshold
      = some 0 ∧
    (serverBuildOptions { b with optCurve := some "false" }).optCurve
      = some false := by
  obtain ⟨pr, th, td, oc, tp, par, mw, rc, ov, fs⟩ := o
  obtain ⟨bp, bt, btd, boc, btp⟩ := b
  refine ⟨?_, ?_, ?_, ?_, ?_⟩
  · simp [buildConversionOptions]
  · simp [buildConversionOptions]
  · simp only [buildConversionOptions]
    cases tp with
    | none => rfl
    | some p => by_cases hp : p = "" <;> simp [hp]
  · simp only [serverBuildOptions]
    cases btd with
    | none =>
      cases boc with
      | none =>
        cases btp with
        | none => rfl
        | some p => by_cases hp : p = "" <;> simp [hp, parseIntJS, digitsValue]
      | some c =>
        cases btp with
        | none => simp [parseIntJS, digitsValue]
        | some p => by_cases hp : p = "" <;> simp [hp, parseIntJS, digitsValue]
    | some d =>
      by_cases hd : d = "" <;>
        cases boc <;>
          cases btp with
          | none => simp [hd, parseIntJS, digitsValue]
          | some p => by_cases hp : p = "" <;> simp [hd, hp, parseIntJS, digitsValue]
  · simp only [serverBuildOptions]
    cases btp with
    | none => rfl
    | some p => by_cases hp : p = "" <;> simp [hp]

/-- Claim C3 (counterexample): five files with no configured max-workers
give an effective worker count of min(4, 5) = 4 and a chunk size of
ceil(5/4) = 2, hence ceil(5/2) = 3 chunks — not N = min(4, 5) = 4 chunks
as the claim states. -/
theorem parallel_chunk_count_cex :
    (parallelChunks (List.replicate 5 ⟨false, ConvertOutcome.success⟩)
        none).length = 3 ∧
    min 4 (List.replicate 5
        (⟨false, ConvertOutcome.success⟩ : FileTask)).length = 4 ∧
    (3 : Nat) ≠ 4 := by
  refine ⟨rfl, rfl, by decide⟩

/-- Claim C3 (amended): in parallel bulk mode the filtered list is split
into contiguous chunks of size k = ceil(count / W), where W is the
configured max-workers when nonzero and min(4, count) otherwise; this
yields ceil(count / k) chunks — at most W, but possibly fewer — whose
concatenation is the original list; each chunk runs the same per-file
logic as sequential mode, and the summary counters computed after all
chunks finish equal those of the sequential run. -/
theorem parallel_chunking_spec (tasks : List FileTask)
    (maxWorkers : Option Nat) (h : 0 < tasks.length) :
    (parallelChunks tasks maxWorkers).flatten = tasks ∧
    (parallelChunks tasks maxWorkers).length
      = ceilDiv tasks.length
          (ceilDiv tasks.length (effectiveMaxWorkers maxWorkers tasks.length)) ∧
    (parallelChunks tasks maxWorkers).length
      ≤ effectiveMaxWorkers maxWorkers tasks.length ∧
    (∀ c ∈ parallelChunks tasks maxWorkers,
      c.length ≤ ceilDiv tasks.length (effectiveMaxWorkers maxWorkers tasks.length)) ∧
    (∀ (overwrite : Bool) (s : BulkStats),
      convertInParallel overwrite tasks maxWorkers s
        = convertSequentially overwrite tasks s) := by
  have hW := effectiveMaxWorkers_pos maxWorkers tasks.length h
  have hk : 1 ≤ ceilDiv tasks.length (effectiveMaxWorkers maxWorkers tasks.length) :=
    ceilDiv_pos _ _ h hW
  refine ⟨?_, ?_, ?_, ?_, ?_⟩
  · exact chunkAux_flatten tasks.length tasks _ hk (Nat.le_refl _)
  · exact chunkAux_length tasks.length tasks _ hk (Nat.le_refl _)
  · have hlen2 : (parallelChunks tasks maxWorkers).length
        = ceilDiv tasks.length
            (ceilDiv tasks.length (effectiveMaxWorkers maxWorkers tasks.length)) :=
      chunkAux_length tasks.length tasks _ hk (Nat.le_refl _)
    rw [hlen2]
    exact ceilDiv_le_of_le_mul tasks.length _ _ hk
      (le_mul_ceilDiv tasks.length _ hW)
  · exact chunkAux_sizes tasks.length tasks _
  · intro overwrite s
    exact convertInParallel_eq_sequential overwrite tasks maxWorkers s h

/-- Witness for claim C3 at the concrete five-file list with default
workers. -/
theorem parallel_chunking_witness :
    (parallelChunks (List.replicate 5 ⟨false, ConvertOutcome.success⟩)
        none).flatten
      = List.replicate 5 ⟨false, ConvertOutcome.success⟩ :=
  (parallel_chunking_spec (List.replicate 5 ⟨false, ConvertOutcome.success⟩)
    none (by decide)).1

/-- Claim C10 (confirmed): after a `convertDirectory` run that discovered
at least one PNG, successful + failed + skipped equals the length of the
size-filtered file list, `total` equals the number of PNGs discovered
before filtering, hence the sum is at most `total`, with equality whenever
the size filter excludes no file. This holds in both the sequential and
the parallel branch. -/
theorem stats_conservation_spec (pngFiles : List PngFile)
    (o : BulkConversionOptions) (task : PngFile → FileTask)
    (h : 0 < pngFiles.length) :
    (convertDirectory pngFiles o task).successful
        + (convertDirectory pngFiles o task).failed
        + (convertDirectory pngFiles o task).skipped
      = (filterBySize pngFiles o.filterSize).length ∧
    (convertDirectory pngFiles o task).total = pngFiles.length ∧
    (convertDirectory pngFiles o task).successful
        + (convertDirectory pngFiles o task).failed
        + (convertDirectory pngFiles o task).skipped
      ≤ (convertDirectory pngFiles o task).total ∧
    ((filterBySize pngFiles o.filterSize).length = pngFiles.length →
      (convertDirectory pngFiles o task).successful
          + (convertDirectory pngFiles o task).failed
          + (convertDirectory pngFiles o task).skipped
        = (convertDirectory pngFiles o task).total) := by
  have hle := filterBySize_length_le pngFiles o.filterSize
  have hkey :
      (convertDirectory pngFiles o task).successful
          + (convertDirectory pngFiles o task).failed
          + (convertDirectory pngFiles o task).skipped
        = (filterBySize pngFiles o.filterSize).length ∧
      (convertDirectory pngFiles o task).total = pngFiles.length := by
    simp only [convertDirectory]
    rw [if_neg (by omega)]
    set tasks := List.map task (filterBySize pngFiles o.filterSize) with htasks
    have hlen : tasks.length = (filterBySize pngFiles o.filterSize).length := by
      rw [htasks, List.length_map]
    split
    · rename_i hpar
      have hpos : 0 < tasks.length := by
        rw [Bool.and_eq_true, decide_eq_true_eq] at hpar
        omega
      rw [convertInParallel_eq_sequential _ _ _ _ hpos]
      obtain ⟨h1, h2⟩ := convertSequentially_counts (o.overwrite.getD false)
        tasks { total := pngFiles.length }
      constructor
      · rw [h1, hlen]; simp
      · exact h2
    · obtain ⟨h1, h2⟩ := convertSequentially_counts (o.overwrite.getD false)
        tasks { total := pngFiles.length }
      constructor
      · rw [h1, hlen]; simp
      · exact h2
  obtain ⟨h1, h2⟩ := hkey
  refine ⟨h1, h2, by omega, fun heq => by omega⟩

/-- Witness for claim C10: a two-file directory, one destination already
present, no size filter. -/
theorem stats_conservation_witness :
    (convertDirectory [⟨"a.png", 2048⟩, ⟨"b.png", 4096⟩] {}
        (fun f => ⟨f.path = "a.png", ConvertOutcome.success⟩)).successful
        + (convertDirectory [⟨"a.png", 2048⟩, ⟨"b.png", 4096⟩] {}
            (fun f => ⟨f.path = "a.png", ConvertOutcome.success⟩)).failed
        + (convertDirectory [⟨"a.png", 2048⟩, ⟨"b.png", 4096⟩] {}
            (fun f => ⟨f.path = "a.png", ConvertOutcome.success⟩)).skipped
      = (filterBySize [⟨"a.png", 2048⟩, ⟨"b.png", 4096⟩]
          (BulkConversionOptions.filterSize {})).length :=
  (stats_conservation_spec [⟨"a.png", 2048⟩, ⟨"b.png", 4096⟩] {}
    (fun f => ⟨f.path = "a.png", ConvertOutcome.success⟩) (by decide)).1

end PngToSvg
